import Mathlib

/-!
Shallow embedding of the error-logging-service dispatch pipeline
(src/core/Logger.ts, src/core/LogEntry.ts, src/core/LogLevel.ts,
src/transports/Transport.ts, src/transports/ConsoleTransport.ts,
src/plugins/Plugin.ts).

Modelling conventions:
* The JS event loop is modelled by explicit outcome values: a promise
  rejection is an `Option ErrObj` field, a synchronous throw inside the
  async `log` body also surfaces as that rejection (JS captures every
  throw inside an async function body into the returned promise).
* The public logging methods (`debug`/`info`/`warn`/`error`/`fatal`) are
  typed `void` in the source and do not return the promise produced by
  `this.log(...)`; calling an async function never throws synchronously,
  so the caller-observable error channel of a public method is always
  empty.  They are modelled as returning a pair: the first component is
  what the caller can catch (always `none`, by that translation), the
  second the full observable outcome of the discarded `log` promise.
* A transport "receives" a record when its `send` is invoked with it;
  the `delivered` trace lists `(name, entry)` pairs in invocation order.
* Timestamps (`new Date()`) are an abstract instant passed as a `now`
  parameter to the entry factory.
-/

namespace ErrLog

/-- LogLevel enum (src/core/LogLevel.ts): DEBUG = 0, INFO = 1, WARN = 2,
ERROR = 3, FATAL = 4.  The numeric values are what enable filtering by
severity (level >= threshold comparisons); the total order is captured
by LogLevel.toNat below. -/
inductive LogLevel where
  | DEBUG
  | INFO
  | WARN
  | ERROR
  | FATAL
deriving DecidableEq, Repr

/-- Numeric value of each level, exactly the enum member values of
src/core/LogLevel.ts. -/
def LogLevel.toNat : LogLevel → Nat
  | .DEBUG => 0
  | .INFO => 1
  | .WARN => 2
  | .ERROR => 3
  | .FATAL => 4

/-- LOG_LEVEL_LABELS (src/core/LogLevel.ts): the human-readable label
lookup table, with an entry for every level, FATAL included. -/
def LOG_LEVEL_LABELS : LogLevel → String
  | .DEBUG => "DEBUG"
  | .INFO => "INFO"
  | .WARN => "WARN"
  | .ERROR => "ERROR"
  | .FATAL => "FATAL"

/-- A JS Error value, abstracted to its message (the only part the
pipeline inspects: defaultFormatter reads error.message). -/
structure ErrObj where
  message : String
deriving DecidableEq, Repr

/-- Free-form context mapping (Record<String, unknown>), abstracted to
string-keyed string values; the pipeline never inspects the values. -/
abbrev Ctx := List (String × String)

/-- LogEntry (src/core/LogEntry.ts): immutable record with exactly the
fields level, message, timestamp, error?, context?.  There is no id
field in the source interface. -/
structure LogEntry where
  level : LogLevel
  message : String
  timestamp : Nat
  error : Option ErrObj
  context : Option Ctx
deriving DecidableEq, Repr

/-- createLogEntry (src/core/LogEntry.ts): factory stamping the current
instant; it takes no id and calls no id generator. -/
def createLogEntry (level : LogLevel) (message : String) (error : Option ErrObj)
    (context : Option Ctx) (now : Nat) : LogEntry :=
  { timestamp := now, level := level, message := message, error := error, context := context }

/-- Result of one plugin call (src/plugins/Plugin.ts): a transformed
entry, null (the drop signal), or a throw / rejected promise. -/
inductive PluginOutcome where
  | ok (e : LogEntry)
  | drop
  | err (ex : ErrObj)
deriving DecidableEq, Repr

/-- Plugin: (entry) => Promise<LogEntry | null> | LogEntry | null,
with throwing behaviour made explicit. -/
abbrev Plugin := LogEntry → PluginOutcome

/-- Behaviour of one transport.send call: resolve, return a promise that
rejects, or throw synchronously before returning a promise. -/
inductive SendBehavior where
  | resolves
  | rejects (ex : ErrObj)
  | throwsSync (ex : ErrObj)
deriving DecidableEq, Repr

/-- Transport contract (src/transports/Transport.ts): a unique name and
a send function. -/
structure Transport where
  name : String
  send : LogEntry → SendBehavior

/-- The three configuration-error shapes the Logger throws, distinguished
by their messages in the source. -/
inductive LoggerError where
  | alreadyInitialized
  | notInitialized
  | duplicateBackend (name : String)
deriving DecidableEq, Repr

/-- uuid's v4 export: external npm dependency, not repository code.  Its
value is irrelevant to every observable behaviour (it is stored by
resolveConfig but never invoked). -/
def uuidv4 : Unit → String := fun _ => "00000000-0000-4000-8000-000000000000"

/-- LoggerConfig (src/core/Logger.ts lines 9-36): all fields optional. -/
structure LoggerConfig where
  minLevel : Option LogLevel := none
  transports : Option (List Transport) := none
  plugins : Option (List Plugin) := none
  generateId : Option (Unit → String) := none

/-- ResolvedConfig = Required of LoggerConfig (src/core/Logger.ts line 39). -/
structure ResolvedConfig where
  minLevel : LogLevel
  transports : List Transport
  plugins : List Plugin
  generateId : Unit → String

/-- Logger.resolveConfig (src/core/Logger.ts lines 218-225): fills each
absent field with its default. -/
def resolveConfig (config : LoggerConfig) : ResolvedConfig :=
  { minLevel := config.minLevel.getD .DEBUG
    transports := config.transports.getD []
    plugins := config.plugins.getD []
    generateId := config.generateId.getD uuidv4 }

/-- Outcome of running the plugin chain (the for...of loop in Logger.log):
either the surviving entry, a drop, or a thrown error, together with how
many plugins were invoked.  The chain is sequential: each plugin is
awaited before the next starts, so the invoked plugins are exactly the
first `ran` of the chain, in registration order. -/
inductive ChainResult where
  | ok (e : LogEntry) (ran : Nat)
  | dropped (ran : Nat)
  | thrown (ex : ErrObj) (ran : Nat)
deriving DecidableEq, Repr

/-- The for...of plugin loop of Logger.log (src/core/Logger.ts lines
186-190): thread the entry through each plugin in order; stop at the
first null; a throw propagates. -/
def runPlugins : List Plugin → LogEntry → ChainResult
  | [], e => .ok e 0
  | p :: rest, e =>
    match p e with
    | .ok e2 =>
      match runPlugins rest e2 with
      | .ok e3 n => .ok e3 (n + 1)
      | .dropped n => .dropped (n + 1)
      | .thrown ex n => .thrown ex (n + 1)
    | .drop => .dropped 1
    | .err ex => .thrown ex 1

/-- Observable outcome of Logger.dispatch: which transports had `send`
invoked (with the entry), the console.error fallback reports (failing
transport name and error), and any synchronous throw escaping dispatch. -/
structure DispatchResult where
  delivered : List (String × LogEntry)
  sideChannel : List (String × ErrObj)
  thrown : Option ErrObj
deriving DecidableEq, Repr

/-- Logger.dispatch (src/core/Logger.ts lines 205-214):
`transports.map(t => t.send(entry).catch(err => console.error(...)))`
followed by Promise.allSettled (whose result is discarded).
A rejected send is caught by the attached .catch, which reports the
transport name and error on the fallback console (side channel).
A synchronous throw inside send aborts Array.prototype.map: transports
already started keep running (their promises are in flight with .catch
attached), but later transports are never invoked and the throw escapes
dispatch. -/
def dispatch (transports : List Transport) (e : LogEntry) : DispatchResult :=
  match transports with
  | [] => ⟨[], [], none⟩
  | t :: rest =>
    match t.send e with
    | .resolves =>
      let d := dispatch rest e
      ⟨(t.name, e) :: d.delivered, d.sideChannel, d.thrown⟩
    | .rejects ex =>
      let d := dispatch rest e
      ⟨(t.name, e) :: d.delivered, (t.name, ex) :: d.sideChannel, d.thrown⟩
    | .throwsSync ex => ⟨[(t.name, e)], [], some ex⟩

/-- Observable outcome of one Logger.log call: whether createLogEntry was
invoked, how many plugins ran, the delivery trace, the fallback console
reports, and the rejection (if any) of the async log promise. -/
structure LogOutcome where
  entryConstructed : Bool
  stagesRun : Nat
  delivered : List (String × LogEntry)
  sideChannel : List (String × ErrObj)
  rejection : Option ErrObj
deriving DecidableEq, Repr

/-- Logger.log (src/core/Logger.ts lines 163-193): severity gate
(`level < this.config.minLevel`, numeric), then entry construction, then
the plugin chain, then dispatch.  A plugin throw rejects the promise with
no dispatch; a drop returns normally with no dispatch; a synchronous
throw out of dispatch also rejects the promise (it happens inside the
async body). -/
def Logger.log (st : ResolvedConfig) (level : LogLevel) (message : String)
    (error : Option ErrObj) (context : Option Ctx) (now : Nat) : LogOutcome :=
  if level.toNat < st.minLevel.toNat then
    ⟨false, 0, [], [], none⟩
  else
    match runPlugins st.plugins (createLogEntry level message error context now) with
    | .ok e n =>
      let d := dispatch st.transports e
      ⟨true, n, d.delivered, d.sideChannel, d.thrown⟩
    | .dropped n => ⟨true, n, [], [], none⟩
    | .thrown ex n => ⟨true, n, [], [], some ex⟩

/-- Logger.debug (src/core/Logger.ts lines 111-113): returns void and
discards the promise of `this.log(...)`; calling an async function never
throws synchronously, so the caller-catchable channel (first component)
is empty by the JS semantics of the source. -/
def Logger.debug (st : ResolvedConfig) (message : String) (context : Option Ctx)
    (now : Nat) : Option ErrObj × LogOutcome :=
  (none, Logger.log st .DEBUG message none context now)

/-- Logger.info (src/core/Logger.ts lines 115-117), same void shape. -/
def Logger.info (st : ResolvedConfig) (message : String) (context : Option Ctx)
    (now : Nat) : Option ErrObj × LogOutcome :=
  (none, Logger.log st .INFO message none context now)

/-- Logger.warn (src/core/Logger.ts lines 119-121), same void shape. -/
def Logger.warn (st : ResolvedConfig) (message : String) (context : Option Ctx)
    (now : Nat) : Option ErrObj × LogOutcome :=
  (none, Logger.log st .WARN message none context now)

/-- Logger.error (src/core/Logger.ts lines 123-125), same void shape,
with the optional Error argument. -/
def Logger.error (st : ResolvedConfig) (message : String) (error : Option ErrObj)
    (context : Option Ctx) (now : Nat) : Option ErrObj × LogOutcome :=
  (none, Logger.log st .ERROR message error context now)

/-- Logger.fatal (src/core/Logger.ts lines 127-129), same void shape,
with the optional Error argument. -/
def Logger.fatal (st : ResolvedConfig) (message : String) (error : Option ErrObj)
    (context : Option Ctx) (now : Nat) : Option ErrObj × LogOutcome :=
  (none, Logger.log st .FATAL message error context now)

/-- Logger.addTransport (src/core/Logger.ts lines 143-153): throws if a
transport with the same name exists (leaving the collection untouched,
since the throw precedes the push), otherwise appends.  Returned pair:
the thrown-or-ok result and the collection after the call. -/
def Logger.addTransport (ts : List Transport) (tr : Transport) :
    Except LoggerError Unit × List Transport :=
  if ts.any (fun t => t.name == tr.name) then
    (.error (.duplicateBackend tr.name), ts)
  else
    (.ok (), ts ++ [tr])

/-- Logger.init (src/core/Logger.ts lines 71-80): throws if the static
instance slot is occupied (the slot keeps its value), otherwise stores a
new Logger built by resolveConfig.  Returned pair: result and the slot
after the call. -/
def Logger.init (inst : Option ResolvedConfig) (config : LoggerConfig) :
    Except LoggerError ResolvedConfig × Option ResolvedConfig :=
  match inst with
  | some st => (.error .alreadyInitialized, some st)
  | none => (.ok (resolveConfig config), some (resolveConfig config))

/-- Logger.getInstance (src/core/Logger.ts lines 87-95): throws on an
empty slot, otherwise returns the instance. -/
def Logger.getInstance (inst : Option ResolvedConfig) :
    Except LoggerError ResolvedConfig :=
  match inst with
  | none => .error .notInitialized
  | some st => .ok st

/-- Logger.reset (src/core/Logger.ts lines 105-107): clears the slot
unconditionally; never throws. -/
def Logger.reset (_inst : Option ResolvedConfig) : Option ResolvedConfig :=
  none

/-- The four console methods ConsoleTransport can resolve to. -/
inductive ConsoleMethod where
  | debug
  | info
  | warn
  | error
deriving DecidableEq, Repr

/-- ConsoleTransport.resolveConsoleMethod (src/transports/
ConsoleTransport.ts lines 66-77): the literal map holds entries only for
DEBUG, INFO, WARN and ERROR; indexing it with FATAL yields undefined,
modelled as none. -/
def resolveConsoleMethod : LogLevel → Option ConsoleMethod
  | .DEBUG => some .debug
  | .INFO => some .info
  | .WARN => some .warn
  | .ERROR => some .error
  | .FATAL => none

/-- TransportError (src/transports/Transport.ts): message, transport
name and the undelivered entry (the JS cause chain is not modelled). -/
structure TransportError where
  message : String
  transportName : String
  entry : LogEntry
deriving DecidableEq, Repr

/-- Date.prototype.toISOString on the abstract instant; external JS
built-in, total, its exact text is never inspected by the pipeline. -/
def isoString (n : Nat) : String := toString n

/-- ConsoleTransport.defaultFormatter (src/transports/ConsoleTransport.ts
lines 53-58). -/
def defaultFormatter (e : LogEntry) : String :=
  let label := LOG_LEVEL_LABELS e.level
  let time := isoString e.timestamp
  let errorPart :=
    match e.error with
    | some ex => " | " ++ ex.message
    | none => ""
  "[" ++ time ++ "] [" ++ label ++ "] " ++ e.message ++ errorPart

/-- ConsoleTransport.send (src/transports/ConsoleTransport.ts lines
30-51): format the entry, resolve the console method for its level and
invoke it; invoking the undefined lookup result throws inside the try
block, and the catch rethrows as TransportError with name "console" and
the entry.  Success carries the method invoked and the formatted text. -/
def ConsoleTransport.send (formatter : Option (LogEntry → String)) (e : LogEntry) :
    Except TransportError (ConsoleMethod × String) :=
  let message :=
    match formatter with
    | some f => f e
    | none => defaultFormatter e
  match resolveConsoleMethod e.level with
  | some m => .ok (m, message)
  | none => .error ⟨"ConsoleTransport failed to send entry", "console", e⟩

-- ─── Helper lemmas ──────────────────────────────────────────────────────────

/-- If every transport in the list resolves on the entry, dispatch invokes
each send in order, reports nothing and throws nothing. -/
lemma dispatch_all_resolves (ts : List Transport) (e : LogEntry)
    (h : ∀ t ∈ ts, t.send e = .resolves) :
    dispatch ts e = ⟨ts.map (fun t => (t.name, e)), [], none⟩ := by
  induction ts with
  | nil => rfl
  | cons t rest ih =>
    have ht : t.send e = .resolves := h t (List.mem_cons_self t rest)
    have hrest : ∀ u ∈ rest, u.send e = .resolves :=
      fun u hu => h u (List.mem_cons_of_mem t hu)
    simp [dispatch, ht, ih hrest]

/-- An initial run of resolving transports is transparent for dispatch: each of
them is invoked and the remainder behaves as dispatched alone. -/
lemma dispatch_resolving_initial (ts1 ts : List Transport) (e : LogEntry)
    (h : ∀ t ∈ ts1, t.send e = .resolves) :
    dispatch (ts1 ++ ts) e =
      ⟨ts1.map (fun t => (t.name, e)) ++ (dispatch ts e).delivered,
        (dispatch ts e).sideChannel, (dispatch ts e).thrown⟩ := by
  induction ts1 with
  | nil => rfl
  | cons t rest ih =>
    have ht : t.send e = .resolves := h t (List.mem_cons_self t rest)
    have hrest : ∀ u ∈ rest, u.send e = .resolves :=
      fun u hu => h u (List.mem_cons_of_mem t hu)
    simp [dispatch, ht, ih hrest]

/-- When the chain completes without a drop or throw, every plugin ran. -/
lemma runPlugins_ok_length (ps : List Plugin) (e e2 : LogEntry) (n : Nat)
    (h : runPlugins ps e = .ok e2 n) : n = ps.length := by
  induction ps generalizing e n with
  | nil =>
    simp only [runPlugins] at h
    cases h
    rfl
  | cons p rest ih =>
    simp only [runPlugins] at h
    cases hp : p e with
    | ok e3 =>
      rw [hp] at h
      simp only [] at h
      cases hr : runPlugins rest e3 with
      | ok e4 k =>
        rw [hr] at h
        simp only [] at h
        cases h
        simp [ih e3 k hr]
      | dropped k =>
        rw [hr] at h
        simp only [] at h
        cases h
      | thrown ex k =>
        rw [hr] at h
        simp only [] at h
        cases h
    | drop =>
      rw [hp] at h
      simp only [] at h
      cases h
    | err ex =>
      rw [hp] at h
      simp only [] at h
      cases h

/-- Sequencing: a chain prefix that completes with entry e2 after n
plugins makes the whole chain behave as the suffix on e2, with the
plugin count offset by n. -/
lemma runPlugins_ok_append (xs ys : List Plugin) (e e2 : LogEntry) (n : Nat)
    (h : runPlugins xs e = .ok e2 n) :
    runPlugins (xs ++ ys) e =
      match runPlugins ys e2 with
      | .ok e3 m => .ok e3 (n + m)
      | .dropped m => .dropped (n + m)
      | .thrown ex m => .thrown ex (n + m) := by
  induction xs generalizing e n with
  | nil =>
    simp only [runPlugins] at h
    cases h
    simp only [List.nil_append]
    cases runPlugins ys e2 <;> simp
  | cons p rest ih =>
    simp only [runPlugins] at h
    cases hp : p e with
    | ok e3 =>
      rw [hp] at h
      simp only [] at h
      cases hr : runPlugins rest e3 with
      | ok e4 k =>
        rw [hr] at h
        simp only [] at h
        cases h
        have hrec := ih e3 k hr
        simp only [List.cons_append, runPlugins, hp]
        cases hys : runPlugins ys e2 with
        | ok e5 m =>
          rw [hys] at hrec
          simp only [] at hrec
          simp [List.append_eq, hrec, Nat.add_right_comm]
        | dropped m =>
          rw [hys] at hrec
          simp only [] at hrec
          simp [List.append_eq, hrec, Nat.add_right_comm]
        | thrown ex m =>
          rw [hys] at hrec
          simp only [] at hrec
          simp [List.append_eq, hrec, Nat.add_right_comm]
      | dropped k =>
        rw [hr] at h
        simp only [] at h
        cases h
      | thrown ex k =>
        rw [hr] at h
        simp only [] at h
        cases h
    | drop =>
      rw [hp] at h
      simp only [] at h
      cases h
    | err ex =>
      rw [hp] at h
      simp only [] at h
      cases h

-- ─── Concrete helper values (for witnesses and counterexamples) ─────────────

/-- A transport that always resolves, named "first". -/
def okT1 : Transport := ⟨"first", fun _ => .resolves⟩

/-- A transport that always resolves, named "second". -/
def okT2 : Transport := ⟨"second", fun _ => .resolves⟩

/-- A transport whose send always returns a rejected promise. -/
def rejT : Transport := ⟨"failing", fun _ => .rejects ⟨"network down"⟩⟩

/-- A transport whose send always throws synchronously. -/
def syncT : Transport := ⟨"syncthrow", fun _ => .throwsSync ⟨"boom"⟩⟩

/-- The identity plugin. -/
def idPlugin : Plugin := fun e => .ok e

/-- A plugin that always returns null (the drop signal). -/
def dropPlugin : Plugin := fun _ => .drop

/-- A plugin that always throws. -/
def throwPlugin : Plugin := fun _ => .err ⟨"stage failure"⟩

/-- A sample entry. -/
def e0 : LogEntry := createLogEntry .ERROR "msg" none none 0

-- ─── Claim theorems ─────────────────────────────────────────────────────────

/-- Claim C1: for every record that survives the stage chain and every
backend set in which exactly one backend's send rejects (asynchronously),
every registered backend (the failing one included) has its send invoked
with the record, the failure is reported on the fallback console side
channel naming the failing backend and the error, and nothing is thrown
out of dispatch, so no error reaches the caller of the logging method. -/
theorem dispatch_isolates_single_rejection
    (ts1 ts2 : List Transport) (f : Transport) (ex : ErrObj) (e : LogEntry)
    (hf : f.send e = .rejects ex)
    (h1 : ∀ t ∈ ts1, t.send e = .resolves)
    (h2 : ∀ t ∈ ts2, t.send e = .resolves) :
    dispatch (ts1 ++ f :: ts2) e =
      ⟨(ts1 ++ f :: ts2).map (fun t => (t.name, e)), [(f.name, ex)], none⟩ := by
  have hmid : dispatch (f :: ts2) e =
      ⟨(f.name, e) :: ts2.map (fun t => (t.name, e)), [(f.name, ex)], none⟩ := by
    simp [dispatch, hf, dispatch_all_resolves ts2 e h2]
  rw [dispatch_resolving_initial ts1 (f :: ts2) e h1, hmid]
  simp

/-- Witness for C1: two healthy transports around one rejecting one. -/
theorem dispatch_isolates_single_rejection_witness :
    dispatch [okT1, rejT, okT2] e0 =
      ⟨[("first", e0), ("failing", e0), ("second", e0)],
        [("failing", ⟨"network down"⟩)], none⟩ :=
  dispatch_isolates_single_rejection [okT1] [okT2] rejT ⟨"network down"⟩ e0 rfl
    (by intro t ht; simp only [List.mem_singleton] at ht; subst ht; rfl)
    (by intro t ht; simp only [List.mem_singleton] at ht; subst ht; rfl)

/-- Claim C2: stages run in registration order, and a drop at position k
(a stage that returns null, reached after the k stages before it all
succeeded) stops the chain: exactly k+1 stages run, so no stage at a
position greater than k runs, no backend receives the record, and the
logging call returns normally (no rejection). -/
theorem stage_drop_short_circuit (st : ResolvedConfig) (ps1 ps2 : List Plugin)
    (d : Plugin) (level : LogLevel) (msg : String) (er : Option ErrObj)
    (ctx : Option Ctx) (now : Nat) (e2 : LogEntry) (n : Nat)
    (hgate : st.minLevel.toNat ≤ level.toNat)
    (hd : ∀ e, d e = .drop)
    (hps1 : runPlugins ps1 (createLogEntry level msg er ctx now) = .ok e2 n) :
    Logger.log { st with plugins := ps1 ++ d :: ps2 } level msg er ctx now
        = ⟨true, n + 1, [], [], none⟩
      ∧ n = ps1.length := by
  have hlen := runPlugins_ok_length ps1 _ e2 n hps1
  have hchain : runPlugins (ps1 ++ d :: ps2) (createLogEntry level msg er ctx now)
      = .dropped (n + 1) := by
    rw [runPlugins_ok_append ps1 (d :: ps2) _ e2 n hps1]
    simp [runPlugins, hd e2]
  refine ⟨?_, hlen⟩
  simp [Logger.log, Nat.not_lt.mpr hgate, hchain]

/-- Witness for C2: chain [identity, drop, identity]; the drop at
position 1 leaves exactly 2 stages run and nothing delivered. -/
theorem stage_drop_short_circuit_witness :
    Logger.log ⟨.DEBUG, [okT1], [idPlugin, dropPlugin, idPlugin], uuidv4⟩
        .INFO "m" none none 0 = ⟨true, 2, [], [], none⟩
      ∧ (1 : Nat) = 1 :=
  stage_drop_short_circuit ⟨.DEBUG, [okT1], [], uuidv4⟩ [idPlugin] [idPlugin]
    dropPlugin .INFO "m" none none 0 (createLogEntry .INFO "m" none none 0) 1
    (by decide) (fun e => rfl) rfl

/-- Claim C3: a call whose severity is strictly below minLevel returns
immediately: the record factory is not invoked, zero stages run, no
backend is invoked, nothing is reported and nothing rejects. -/
theorem severity_gate_short_circuit (st : ResolvedConfig) (level : LogLevel)
    (msg : String) (er : Option ErrObj) (ctx : Option Ctx) (now : Nat)
    (h : level.toNat < st.minLevel.toNat) :
    Logger.log st level msg er ctx now = ⟨false, 0, [], [], none⟩ := by
  simp [Logger.log, h]

/-- Witness for C3: DEBUG call against a WARN threshold. -/
theorem severity_gate_short_circuit_witness :
    Logger.log ⟨.WARN, [okT1], [idPlugin], uuidv4⟩ .DEBUG "m" none none 0
      = ⟨false, 0, [], [], none⟩ :=
  severity_gate_short_circuit ⟨.WARN, [okT1], [idPlugin], uuidv4⟩ .DEBUG
    "m" none none 0 (by decide)

/-- Counterexample to C4 as stated: with a throwing stage, the caller of
the public logging method receives nothing it can catch (the method is
typed void and discards the promise of the internal async log), even
though the stage did throw: the error ends as the rejection of the
discarded promise, dispatch having been aborted with no delivery. -/
theorem stage_throw_not_catchable_cx :
    (Logger.error ⟨.DEBUG, [okT1], [throwPlugin], uuidv4⟩ "m" none none 0).1 = none
  ∧ (Logger.error ⟨.DEBUG, [okT1], [throwPlugin], uuidv4⟩ "m" none none 0).2
      = ⟨true, 1, [], [], some ⟨"stage failure"⟩⟩ :=
  ⟨rfl, rfl⟩

/-- Claim C4 (amended): when a stage throws, the record's dispatch is
aborted entirely — no backend receives the record, nothing is reported
on the side channel — and the internal asynchronous log operation rejects
with that error; but the public logging methods return void and discard
that promise, so the error does not propagate to their caller. -/
theorem stage_throw_aborts_dispatch (st : ResolvedConfig) (ps1 ps2 : List Plugin)
    (thrower : Plugin) (ex : ErrObj) (level : LogLevel) (msg : String)
    (er : Option ErrObj) (ctx : Option Ctx) (now : Nat) (e2 : LogEntry) (n : Nat)
    (hgate : st.minLevel.toNat ≤ level.toNat)
    (hthrow : ∀ e, thrower e = .err ex)
    (hps1 : runPlugins ps1 (createLogEntry level msg er ctx now) = .ok e2 n) :
    Logger.log { st with plugins := ps1 ++ thrower :: ps2 } level msg er ctx now
        = ⟨true, n + 1, [], [], some ex⟩
      ∧ (Logger.error { st with plugins := ps1 ++ thrower :: ps2 } msg er ctx now).1
          = none := by
  have hchain : runPlugins (ps1 ++ thrower :: ps2) (createLogEntry level msg er ctx now)
      = .thrown ex (n + 1) := by
    rw [runPlugins_ok_append ps1 (thrower :: ps2) _ e2 n hps1]
    simp [runPlugins, hthrow e2]
  refine ⟨?_, rfl⟩
  simp [Logger.log, Nat.not_lt.mpr hgate, hchain]

/-- Witness for the amended C4: one healthy stage, then a thrower. -/
theorem stage_throw_aborts_dispatch_witness :
    Logger.log ⟨.DEBUG, [okT1], [idPlugin, throwPlugin], uuidv4⟩ .ERROR "m" none none 0
        = ⟨true, 2, [], [], some ⟨"stage failure"⟩⟩
      ∧ (Logger.error ⟨.DEBUG, [okT1], [idPlugin, throwPlugin], uuidv4⟩ "m" none none 0).1
          = none :=
  stage_throw_aborts_dispatch ⟨.DEBUG, [okT1], [], uuidv4⟩ [idPlugin] []
    throwPlugin ⟨"stage failure"⟩ .ERROR "m" none none 0
    (createLogEntry .ERROR "m" none none 0) 1 (by decide) (fun e => rfl) rfl

/-- Counterexample to C5 as stated: a transport whose send throws
synchronously aborts the Array.prototype.map of dispatch, so the
transport registered after it never receives the record — the
"second" transport is absent from the delivery trace. -/
theorem sync_throw_breaks_fanout_cx :
    dispatch [syncT, okT2] e0 = ⟨[("syncthrow", e0)], [], some ⟨"boom"⟩⟩
  ∧ ("second", e0) ∉ (dispatch [syncT, okT2] e0).delivered := by
  refine ⟨rfl, ?_⟩
  decide

/-- Claim C5 (amended): a synchronous throw from a backend's send does
not reach the caller of the public logging methods (which return void
and discard the rejected promise of the internal log), and backends
registered before the throwing one still receive the record, but the
fan-out wrapping (a .catch on the returned promise) does not contain the
synchronous throw: backends registered after the throwing one never
receive the record and the throw escapes dispatch. -/
theorem sync_throw_aborts_remaining (ts1 ts2 : List Transport) (f : Transport)
    (ex : ErrObj) (e : LogEntry)
    (hf : f.send e = .throwsSync ex)
    (h1 : ∀ t ∈ ts1, t.send e = .resolves) :
    dispatch (ts1 ++ f :: ts2) e
        = ⟨ts1.map (fun t => (t.name, e)) ++ [(f.name, e)], [], some ex⟩
      ∧ ∀ (st : ResolvedConfig) (msg : String) (ctx : Option Ctx) (now : Nat),
          (Logger.warn st msg ctx now).1 = none := by
  refine ⟨?_, fun st msg ctx now => rfl⟩
  rw [dispatch_resolving_initial ts1 (f :: ts2) e h1]
  simp [dispatch, hf]

/-- Witness for the amended C5: a healthy transport, then a
synchronously throwing one, then a healthy one that is skipped. -/
theorem sync_throw_aborts_remaining_witness :
    dispatch [okT1, syncT, okT2] e0
        = ⟨[("first", e0), ("syncthrow", e0)], [], some ⟨"boom"⟩⟩
      ∧ ∀ (st : ResolvedConfig) (msg : String) (ctx : Option Ctx) (now : Nat),
          (Logger.warn st msg ctx now).1 = none :=
  sync_throw_aborts_remaining [okT1] [okT2] syncT ⟨"boom"⟩ e0 rfl
    (by intro t ht; simp only [List.mem_singleton] at ht; subst ht; rfl)

/-- Claim C6: adding a transport whose name collides with a registered
one throws the duplicate error synchronously and leaves the collection
exactly as it was (the original keeps its position and identity); a
fresh name is appended at the end. -/
theorem addTransport_duplicate_rejected (ts : List Transport) (tr : Transport) :
    (tr.name ∈ ts.map Transport.name →
      Logger.addTransport ts tr = (.error (.duplicateBackend tr.name), ts))
  ∧ (tr.name ∉ ts.map Transport.name →
      Logger.addTransport ts tr = (.ok (), ts ++ [tr])) := by
  constructor
  · intro h
    have hany : ts.any (fun t => t.name == tr.name) = true := by
      rcases List.mem_map.mp h with ⟨t, ht, hn⟩
      exact List.any_eq_true.mpr ⟨t, ht, by simp [hn]⟩
    simp [Logger.addTransport, hany]
  · intro h
    have hany : ts.any (fun t => t.name == tr.name) = false := by
      cases hc : ts.any (fun t => t.name == tr.name) with
      | false => rfl
      | true =>
        exfalso
        rcases List.any_eq_true.mp hc with ⟨t, ht, hn⟩
        exact h (List.mem_map.mpr ⟨t, ht, eq_of_beq hn⟩)
    simp [Logger.addTransport, hany]

/-- Witness for C6: a name collision on "first" is rejected with the
collection untouched; the fresh name "second" is appended. -/
theorem addTransport_duplicate_rejected_witness :
    Logger.addTransport [okT1] ⟨"first", fun _ => .resolves⟩
        = (.error (.duplicateBackend "first"), [okT1])
  ∧ Logger.addTransport [okT1] okT2 = (.ok (), [okT1, okT2]) :=
  ⟨(addTransport_duplicate_rejected [okT1] ⟨"first", fun _ => .resolves⟩).1
      (by simp [okT1])
   , (addTransport_duplicate_rejected [okT1] okT2).2 (by simp [okT1, okT2])⟩

/-- Claim C7: a second initialize without an intervening reset fails
with the already-initialized error, and the slot still holds the first
instance unchanged. -/
theorem init_twice_rejected (st : ResolvedConfig) (config : LoggerConfig) :
    Logger.init (some st) config = (.error .alreadyInitialized, some st) :=
  rfl

/-- Claim C8: the lifecycle guard's two-state machine: getInstance on
the empty slot fails with the not-initialized error; reset on the empty
slot is a no-op and reset is idempotent; after reset the guard behaves
as uninitialized until init runs again, after which getInstance returns
the newly initialized instance. -/
theorem lifecycle_state_machine (s : Option ResolvedConfig) (config : LoggerConfig) :
    Logger.getInstance none = .error .notInitialized
  ∧ Logger.reset none = none
  ∧ Logger.reset (Logger.reset s) = Logger.reset s
  ∧ Logger.getInstance (Logger.reset s) = .error .notInitialized
  ∧ (Logger.init (Logger.reset s) config).2 = some (resolveConfig config)
  ∧ Logger.getInstance ((Logger.init (Logger.reset s) config).2)
      = .ok (resolveConfig config) :=
  ⟨rfl, rfl, rfl, rfl, rfl, rfl⟩

/-- Claim C9: the resolved generateId function is stored but never
invoked: the observable behaviour of a logging call is identical for any
two generateId options, and constructed records consist of exactly the
five fields level, message, timestamp, error, context — no id. -/
theorem generateId_noninterference (c : LoggerConfig) (g1 g2 : Unit → String)
    (level : LogLevel) (msg : String) (er : Option ErrObj) (ctx : Option Ctx)
    (now : Nat) :
    Logger.log (resolveConfig { c with generateId := some g1 }) level msg er ctx now
        = Logger.log (resolveConfig { c with generateId := some g2 }) level msg er ctx now
      ∧ (resolveConfig { c with generateId := some g1 }).generateId = g1
      ∧ createLogEntry level msg er ctx now = ⟨level, msg, now, er, ctx⟩ :=
  ⟨rfl, rfl, rfl⟩

/-- Claim C10: ConsoleTransport.send on a FATAL entry rejects with a
TransportError (the console-method map has no FATAL key, so the lookup
is undefined and invoking it throws inside the try, rethrown as
TransportError), even though Logger.fatal is a public entry point that
logs at level FATAL. -/
theorem console_fatal_send_rejects (formatter : Option (LogEntry → String))
    (e : LogEntry) (st : ResolvedConfig) (msg : String) (er : Option ErrObj)
    (ctx : Option Ctx) (now : Nat)
    (h : e.level = .FATAL) :
    ConsoleTransport.send formatter e
        = .error ⟨"ConsoleTransport failed to send entry", "console", e⟩
      ∧ (Logger.fatal st msg er ctx now).2 = Logger.log st .FATAL msg er ctx now := by
  refine ⟨?_, rfl⟩
  simp [ConsoleTransport.send, h, resolveConsoleMethod]

/-- Witness for C10: a concrete FATAL entry with the default formatter. -/
theorem console_fatal_send_rejects_witness :
    ConsoleTransport.send none (createLogEntry .FATAL "m" none none 0)
        = .error ⟨"ConsoleTransport failed to send entry", "console",
            createLogEntry .FATAL "m" none none 0⟩
      ∧ (Logger.fatal ⟨.DEBUG, [], [], uuidv4⟩ "m" none none 0).2
          = Logger.log ⟨.DEBUG, [], [], uuidv4⟩ .FATAL "m" none none 0 :=
  console_fatal_send_rejects none (createLogEntry .FATAL "m" none none 0)
    ⟨.DEBUG, [], [], uuidv4⟩ "m" none none 0 rfl

end ErrLog
